import Mathlib

/-!
Verification of the `godot_macros` crate (src/src/lib.rs).

The crate is a flat set of declarative rewrite rules (`macro_rules!`): each
rule arm rewrites an invocation into a single Rust expression built from the
caller's argument tokens and a fixed scaffold of method calls against the
gdext/Godot binding layer.  We embed those right-hand sides shallowly as a
small Rust-expression syntax tree `RExpr`: every rule arm of the source
becomes a Lean function from its (opaque, spliced-verbatim) argument tokens
to the `RExpr` it expands to.  Properties of the expansions (how many engine
calls, whether control flow or error handling is introduced, how arguments
are threaded to the engine) are then decidable structural observations on
`RExpr`.

Method and accessor names that occur in the expansions form a fixed finite
set, so they are an enumeration `MethodName`.  Caller-supplied tokens
(`$self:ident`, `$node_path:expr`, `$signal:expr`, ...) are opaque: a macro
splices them verbatim, so they are `String`s wrapped in `RExpr.arg`
(expression tokens) or used as the receiver identifier / type token.
-/

/-- The method, accessor and associated-function names occurring in the
right-hand sides of the rewrite rules of `lib.rs`. -/
inductive MethodName where
  | base
  | base_mut
  | get_node_as
  | connect
  | callable
  | into
  | expect
  | singleton
  | is_anything_pressed
  | is_key_pressed
  | is_physical_key_pressed
  | is_key_label_pressed
  | is_mouse_button_pressed
  | is_joy_button_pressed
  | is_action_pressed
  | is_action_just_pressed
  | is_action_just_released
  | get_action_strength
  | get_action_raw_strength
  | get_axis
  | emit_signal
  | queue_free
  | get_tree
  | reload_current_scene

/-- Rust expressions, as far as the crate's expansions (and the control-flow
and binding constructs the spec denies they contain) need.  Every method call
in `lib.rs` has zero, one or two value arguments and at most one type
argument, so calls are arity-indexed:

* `arg s`            — a caller-supplied expression token, spliced verbatim;
* `var s`            — a plain identifier appearing in the expansion
                       (the `$self` ident, or the path head `Input`);
* `strLit s`         — a string literal written by the expansion itself;
* `emptySliceLit`    — the literal `&[]`;
* `statCall t m`     — an associated-function call `t::m()`;
* `call0 r m`        — `r.m()`;
* `call1 r m a`      — `r.m(a)`;
* `call2 r m a b`    — `r.m(a, b)`;
* `callTy1 r m T a`  — `r.m::<T>(a)` (the type token is opaque text);
* `iteE`, `letE`, `loopE` — branching, a binding statement, a loop:
  constructs an expansion could in principle introduce; the theorems below
  show none does. -/
inductive RExpr where
  | arg : String → RExpr
  | var : String → RExpr
  | strLit : String → RExpr
  | emptySliceLit : RExpr
  | statCall : String → MethodName → RExpr
  | call0 : RExpr → MethodName → RExpr
  | call1 : RExpr → MethodName → RExpr → RExpr
  | call2 : RExpr → MethodName → RExpr → RExpr → RExpr
  | callTy1 : RExpr → MethodName → String → RExpr → RExpr
  | iteE : RExpr → RExpr → RExpr → RExpr
  | letE : String → RExpr → RExpr → RExpr
  | loopE : RExpr → RExpr

/-! ## The rewrite rules of `lib.rs`, one definition per rule arm

Arguments named as in the source: `s` is `$self:ident`, `p` is
`$node_path:expr`, `ty` is `$node_type:ty`, and so on.  Each definition is a
direct transcription of the corresponding arm's right-hand side. -/

/-- `n!($self, $node_path)` rewrites to
`$self.base().get_node_as::<Node>($node_path)` (lib.rs lines 24-26). -/
def n_path (s p : String) : RExpr :=
  .callTy1 (.call0 (.var s) .base) .get_node_as "Node" (.arg p)

/-- `n!($self, $node_type, $node_path)` rewrites to
`$self.base().get_node_as::<$node_type>($node_path)` (lib.rs lines 27-29). -/
def n_ty_path (s ty p : String) : RExpr :=
  .callTy1 (.call0 (.var s) .base) .get_node_as ty (.arg p)

/-- `n!($self, $node_path, $node_type)` rewrites to
`$self.base().get_node_as::<$node_type>($node_path)` (lib.rs lines 30-32). -/
def n_path_ty (s p ty : String) : RExpr :=
  .callTy1 (.call0 (.var s) .base) .get_node_as ty (.arg p)

/-- `nm!($self, $node_path)` rewrites to
`$self.base_mut().get_node_as::<Node>($node_path)` (lib.rs lines 54-56). -/
def nm_path (s p : String) : RExpr :=
  .callTy1 (.call0 (.var s) .base_mut) .get_node_as "Node" (.arg p)

/-- `nm!($self, $node_type, $node_path)` rewrites to
`$self.base_mut().get_node_as::<$node_type>($node_path)` (lib.rs lines 57-59). -/
def nm_ty_path (s ty p : String) : RExpr :=
  .callTy1 (.call0 (.var s) .base_mut) .get_node_as ty (.arg p)

/-- `nm!($self, $node_path, $node_type)` rewrites to
`$self.base_mut().get_node_as::<$node_type>($node_path)` (lib.rs lines 60-62). -/
def nm_path_ty (s p ty : String) : RExpr :=
  .callTy1 (.call0 (.var s) .base_mut) .get_node_as ty (.arg p)

/-- `connect!($self, $node_path, $signal, $callback_name)` rewrites to
`n!($self, $node_path).connect($signal.into(), $self.base().callable($callback_name))`
(lib.rs lines 88-90); the inner `n!` invocation is the two-token arm `n_path`. -/
def connect_self (s p sig cb : String) : RExpr :=
  .call2 (n_path s p) .connect
    (.call0 (.arg sig) .into)
    (.call1 (.call0 (.var s) .base) .callable (.arg cb))

/-- `connect!($self, $node_path_1, $signal, $node_path_2, $callback_name)`
rewrites to
`n!($self, $node_path_1).connect($signal.into(), n!($self, $node_path_2).callable($callback_name))`
(lib.rs lines 91-93). -/
def connect_node (s p1 sig p2 cb : String) : RExpr :=
  .call2 (n_path s p1) .connect
    (.call0 (.arg sig) .into)
    (.call1 (n_path s p2) .callable (.arg cb))

/-- `any_press!()` rewrites to `Input::singleton().is_anything_pressed()`
(lib.rs lines 109-111). -/
def any_press : RExpr :=
  .call0 (.statCall "Input" .singleton) .is_anything_pressed

/-- `key_press!($keycode)` rewrites to
`Input::singleton().is_key_pressed($keycode)` (lib.rs lines 127-129). -/
def key_press (k : String) : RExpr :=
  .call1 (.statCall "Input" .singleton) .is_key_pressed (.arg k)

/-- `key_press_phys!($keycode)` rewrites to
`Input::singleton().is_physical_key_pressed($keycode)` (lib.rs lines 145-147). -/
def key_press_phys (k : String) : RExpr :=
  .call1 (.statCall "Input" .singleton) .is_physical_key_pressed (.arg k)

/-- `key_press_label!($keycode)` rewrites to
`Input::singleton().is_key_label_pressed($keycode)` (lib.rs lines 163-165). -/
def key_press_label (k : String) : RExpr :=
  .call1 (.statCall "Input" .singleton) .is_key_label_pressed (.arg k)

/-- `mouse_press!($button)` rewrites to
`Input::singleton().is_mouse_button_pressed($button)` (lib.rs lines 181-183). -/
def mouse_press (b : String) : RExpr :=
  .call1 (.statCall "Input" .singleton) .is_mouse_button_pressed (.arg b)

/-- `joy_press!($device, $button)` rewrites to
`Input::singleton().is_joy_button_pressed($device, $button)` (lib.rs lines 199-201). -/
def joy_press (d b : String) : RExpr :=
  .call2 (.statCall "Input" .singleton) .is_joy_button_pressed (.arg d) (.arg b)

/-- `act_press!($action)` rewrites to
`Input::singleton().is_action_pressed($action.into())` (lib.rs lines 221-223). -/
def act_press (a : String) : RExpr :=
  .call1 (.statCall "Input" .singleton) .is_action_pressed (.call0 (.arg a) .into)

/-- `act_press_down!($action)` rewrites to
`Input::singleton().is_action_just_pressed($action.into())` (lib.rs lines 243-245). -/
def act_press_down (a : String) : RExpr :=
  .call1 (.statCall "Input" .singleton) .is_action_just_pressed (.call0 (.arg a) .into)

/-- `act_press_up!($action)` rewrites to
`Input::singleton().is_action_just_released($action.into())` (lib.rs lines 265-267). -/
def act_press_up (a : String) : RExpr :=
  .call1 (.statCall "Input" .singleton) .is_action_just_released (.call0 (.arg a) .into)

/-- `act_str!($action)` rewrites to
`Input::singleton().get_action_strength($action.into())` (lib.rs lines 287-289). -/
def act_str (a : String) : RExpr :=
  .call1 (.statCall "Input" .singleton) .get_action_strength (.call0 (.arg a) .into)

/-- `act_str_raw!($action)` rewrites to
`Input::singleton().get_action_raw_strength($action.into())` (lib.rs lines 309-311). -/
def act_str_raw (a : String) : RExpr :=
  .call1 (.statCall "Input" .singleton) .get_action_raw_strength (.call0 (.arg a) .into)

/-- `act_axis!($negative_action, $positive_action)` rewrites to
`Input::singleton().get_axis($negative_action.into(), $positive_action.into())`
(lib.rs lines 331-333). -/
def act_axis (na pa : String) : RExpr :=
  .call2 (.statCall "Input" .singleton) .get_axis
    (.call0 (.arg na) .into) (.call0 (.arg pa) .into)

/-- `emit!($self, $signal)` rewrites to
`$self.base_mut().emit_signal($signal.into(), &[])` (lib.rs lines 352-354). -/
def emit (s sig : String) : RExpr :=
  .call2 (.call0 (.var s) .base_mut) .emit_signal
    (.call0 (.arg sig) .into) .emptySliceLit

/-- `free!($self)` rewrites to `$self.base_mut().queue_free()`
(lib.rs lines 370-372). -/
def free (s : String) : RExpr :=
  .call0 (.call0 (.var s) .base_mut) .queue_free

/-- `reload!($self)` rewrites to
`$self.base_mut().get_tree().expect("Node has no tree").reload_current_scene()`
(lib.rs lines 392-394). -/
def reload (s : String) : RExpr :=
  .call0
    (.call1 (.call0 (.call0 (.var s) .base_mut) .get_tree)
      .expect (.strLit "Node has no tree"))
    .reload_current_scene

/-! ## Structural observers on expansions -/

/-- Whether a name is a direct call against the underlying engine API.
`base` and `base_mut` are field accessors of the gdext wrapper struct
(`WithBaseField`), not engine calls; `into` is Rust's std conversion trait
method; `expect` is Rust's std `Option` combinator.  Everything else in
`MethodName` is a Godot class method or associated function reached through
the binding. -/
def MethodName.isEngine : MethodName → Bool
  | .base => false
  | .base_mut => false
  | .into => false
  | .expect => false
  | _ => true

/-- Whether a name is `expect`, std's abort-with-message combinator: the one
error-handling construct a rewrite rule could contribute itself. -/
def MethodName.isExpect : MethodName → Bool
  | .expect => true
  | _ => false

/-- Number of call nodes in an expression whose name satisfies `pr`. -/
def countCalls (pr : MethodName → Bool) : RExpr → Nat
  | .arg _ => 0
  | .var _ => 0
  | .strLit _ => 0
  | .emptySliceLit => 0
  | .statCall _ m => if pr m then 1 else 0
  | .call0 r m => (if pr m then 1 else 0) + countCalls pr r
  | .call1 r m a => (if pr m then 1 else 0) + countCalls pr r + countCalls pr a
  | .call2 r m a b =>
      (if pr m then 1 else 0) + countCalls pr r + countCalls pr a + countCalls pr b
  | .callTy1 r m _ a => (if pr m then 1 else 0) + countCalls pr r + countCalls pr a
  | .iteE c t e => countCalls pr c + countCalls pr t + countCalls pr e
  | .letE _ v b => countCalls pr v + countCalls pr b
  | .loopE b => countCalls pr b

/-- Number of direct engine-API calls in an expression. -/
def engineCalls (e : RExpr) : Nat := countCalls MethodName.isEngine e

/-- Number of `expect` calls in an expression. -/
def expectCalls (e : RExpr) : Nat := countCalls MethodName.isExpect e

/-- `true` iff the expression is one straight-line call chain: it contains no
branching, no binding statement and no loop anywhere. -/
def straightLine : RExpr → Bool
  | .arg _ => true
  | .var _ => true
  | .strLit _ => true
  | .emptySliceLit => true
  | .statCall _ _ => true
  | .call0 r _ => straightLine r
  | .call1 r _ a => straightLine r && straightLine a
  | .call2 r _ a b => straightLine r && straightLine a && straightLine b
  | .callTy1 r _ _ a => straightLine r && straightLine a
  | .iteE _ _ _ => false
  | .letE _ _ _ => false
  | .loopE _ => false

/-- `true` iff the expression contains a string literal of the expansion's
own (as opposed to caller-supplied tokens, which are opaque `arg`s). -/
def hasOwnStrLit : RExpr → Bool
  | .arg _ => false
  | .var _ => false
  | .strLit _ => true
  | .emptySliceLit => false
  | .statCall _ _ => false
  | .call0 r _ => hasOwnStrLit r
  | .call1 r _ a => hasOwnStrLit r || hasOwnStrLit a
  | .call2 r _ a b => hasOwnStrLit r || hasOwnStrLit a || hasOwnStrLit b
  | .callTy1 r _ _ a => hasOwnStrLit r || hasOwnStrLit a
  | .iteE c t e => hasOwnStrLit c || hasOwnStrLit t || hasOwnStrLit e
  | .letE _ v b => hasOwnStrLit v || hasOwnStrLit b
  | .loopE b => hasOwnStrLit b

/-- `true` iff no call node anywhere in the expression has a caller-supplied
argument token as its receiver — that is, the expansion applies no method
(no conversion, no transformation) to any argument before it reaches its
argument position. -/
def untouchedArgs : RExpr → Bool
  | .arg _ => true
  | .var _ => true
  | .strLit _ => true
  | .emptySliceLit => true
  | .statCall _ _ => true
  | .call0 (.arg _) _ => false
  | .call1 (.arg _) _ _ => false
  | .call2 (.arg _) _ _ _ => false
  | .callTy1 (.arg _) _ _ _ => false
  | .call0 r _ => untouchedArgs r
  | .call1 r _ a => untouchedArgs r && untouchedArgs a
  | .call2 r _ a b => untouchedArgs r && untouchedArgs a && untouchedArgs b
  | .callTy1 r _ _ a => untouchedArgs r && untouchedArgs a
  | .iteE c t e => untouchedArgs c && untouchedArgs t && untouchedArgs e
  | .letE _ v b => untouchedArgs v && untouchedArgs b
  | .loopE b => untouchedArgs b

/-- `true` iff the only method ever applied to a caller-supplied argument
token is a bare, argument-free `.into()` conversion. -/
def argCallsOnlyInto : RExpr → Bool
  | .arg _ => true
  | .var _ => true
  | .strLit _ => true
  | .emptySliceLit => true
  | .statCall _ _ => true
  | .call0 (.arg _) .into => true
  | .call0 (.arg _) _ => false
  | .call1 (.arg _) _ _ => false
  | .call2 (.arg _) _ _ _ => false
  | .callTy1 (.arg _) _ _ _ => false
  | .call0 r _ => argCallsOnlyInto r
  | .call1 r _ a => argCallsOnlyInto r && argCallsOnlyInto a
  | .call2 r _ a b => argCallsOnlyInto r && argCallsOnlyInto a && argCallsOnlyInto b
  | .callTy1 r _ _ a => argCallsOnlyInto r && argCallsOnlyInto a
  | .iteE c t e => argCallsOnlyInto c && argCallsOnlyInto t && argCallsOnlyInto e
  | .letE _ v b => argCallsOnlyInto v && argCallsOnlyInto b
  | .loopE b => argCallsOnlyInto b

/-- Rename the immutable base accessor to the mutable one, leaving everything
else (receivers, type tokens, argument tokens) untouched. -/
def baseToMut : RExpr → RExpr
  | .arg a => .arg a
  | .var v => .var v
  | .strLit l => .strLit l
  | .emptySliceLit => .emptySliceLit
  | .statCall t m => .statCall t m
  | .call0 r .base => .call0 (baseToMut r) .base_mut
  | .call0 r m => .call0 (baseToMut r) m
  | .call1 r .base a => .call1 (baseToMut r) .base_mut (baseToMut a)
  | .call1 r m a => .call1 (baseToMut r) m (baseToMut a)
  | .call2 r .base a b => .call2 (baseToMut r) .base_mut (baseToMut a) (baseToMut b)
  | .call2 r m a b => .call2 (baseToMut r) m (baseToMut a) (baseToMut b)
  | .callTy1 r .base ty a => .callTy1 (baseToMut r) .base_mut ty (baseToMut a)
  | .callTy1 r m ty a => .callTy1 (baseToMut r) m ty (baseToMut a)
  | .iteE c t e => .iteE (baseToMut c) (baseToMut t) (baseToMut e)
  | .letE x v b => .letE x (baseToMut v) (baseToMut b)
  | .loopE b => .loopE (baseToMut b)

/-- The type token of the outermost `get_node_as` call, if the expression is
one. -/
def getNodeAsTy : RExpr → Option String
  | .callTy1 _ .get_node_as ty _ => some ty
  | _ => none

/-- The path argument of the outermost `get_node_as` call, if the expression
is one. -/
def getNodeAsPath : RExpr → Option RExpr
  | .callTy1 _ .get_node_as _ p => some p
  | _ => none

/-- The value arguments of the outermost call of the expression. -/
def topArgs : RExpr → List RExpr
  | .call0 _ _ => []
  | .call1 _ _ a => [a]
  | .call2 _ _ a b => [a, b]
  | .callTy1 _ _ _ a => [a]
  | _ => []

/-- Whether a name is `into`, the std conversion applied to string-name
arguments before some engine calls. -/
def MethodName.isInto : MethodName → Bool
  | .into => true
  | _ => false

/-- Number of `.into()` conversion calls in an expression. -/
def intoCalls (e : RExpr) : Nat := countCalls MethodName.isInto e

/-! ## Theorems settling the claims -/

/-- C1, counterexample: the claim that every expansion makes at most two
direct engine-API calls fails on `connect!`.  At the concrete invocation
`connect!(self, "MobDetector", "body_entered", "on_body_entered")` (the doc
example of lib.rs line 77) the expansion performs three engine calls:
`get_node_as`, `connect` and `callable`. -/
theorem c1_counterexample :
    ¬ (engineCalls
        (connect_self "self" "MobDetector" "body_entered" "on_body_entered") ≤ 2) := by
  decide

/-- C1, amended: every expansion other than `connect!` makes at most two
direct engine-API calls (exact counts below: one for the node-lookup,
emit, free arms, two for the input queries and reload), while
`connect!` makes three in its self-callback form and four in its two-node
form; and no expansion contains control flow, a binding, or a loop — each is
one straight-line call chain.  (`base`/`base_mut` are wrapper-struct field
accessors, `into`/`expect` std methods; neither is an engine call.) -/
theorem c1_engine_call_budget :
    ∀ s p ty sig cb p2 k d b a na pa : String,
      engineCalls (n_path s p) = 1 ∧
      engineCalls (n_ty_path s ty p) = 1 ∧
      engineCalls (n_path_ty s p ty) = 1 ∧
      engineCalls (nm_path s p) = 1 ∧
      engineCalls (nm_ty_path s ty p) = 1 ∧
      engineCalls (nm_path_ty s p ty) = 1 ∧
      engineCalls (connect_self s p sig cb) = 3 ∧
      engineCalls (connect_node s p sig p2 cb) = 4 ∧
      engineCalls any_press = 2 ∧
      engineCalls (key_press k) = 2 ∧
      engineCalls (key_press_phys k) = 2 ∧
      engineCalls (key_press_label k) = 2 ∧
      engineCalls (mouse_press b) = 2 ∧
      engineCalls (joy_press d b) = 2 ∧
      engineCalls (act_press a) = 2 ∧
      engineCalls (act_press_down a) = 2 ∧
      engineCalls (act_press_up a) = 2 ∧
      engineCalls (act_str a) = 2 ∧
      engineCalls (act_str_raw a) = 2 ∧
      engineCalls (act_axis na pa) = 2 ∧
      engineCalls (emit s sig) = 1 ∧
      engineCalls (free s) = 1 ∧
      engineCalls (reload s) = 2 ∧
      straightLine (n_path s p) = true ∧
      straightLine (n_ty_path s ty p) = true ∧
      straightLine (n_path_ty s p ty) = true ∧
      straightLine (nm_path s p) = true ∧
      straightLine (nm_ty_path s ty p) = true ∧
      straightLine (nm_path_ty s p ty) = true ∧
      straightLine (connect_self s p sig cb) = true ∧
      straightLine (connect_node s p sig p2 cb) = true ∧
      straightLine any_press = true ∧
      straightLine (key_press k) = true ∧
      straightLine (key_press_phys k) = true ∧
      straightLine (key_press_label k) = true ∧
      straightLine (mouse_press b) = true ∧
      straightLine (joy_press d b) = true ∧
      straightLine (act_press a) = true ∧
      straightLine (act_press_down a) = true ∧
      straightLine (act_press_up a) = true ∧
      straightLine (act_str a) = true ∧
      straightLine (act_str_raw a) = true ∧
      straightLine (act_axis na pa) = true ∧
      straightLine (emit s sig) = true ∧
      straightLine (free s) = true ∧
      straightLine (reload s) = true := by
  intros
  repeat' apply And.intro
  all_goals rfl

/-- C2, counterexample: the claim that no expansion adds an error-handling
construct of its own fails on `reload!`.  At the concrete invocation
`reload!(self)` the expansion contains a std `expect` call — an
error-handling construct contributed by the rewrite rule itself, carrying
its own panic message. -/
theorem c2_counterexample : ¬ (expectCalls (reload "self") = 0) := by
  decide

/-- C2, amended: failure behavior is delegated to the wrapped engine for
every expansion except `reload!` — those contain no `expect`, no string
literal of their own, and no branch, binding or loop, so a failing lookup
aborts inside the underlying call and nothing here recovers or retries.
`reload!` alone contributes one error-handling construct of its own: a
single std `expect` whose own panic message is the literal
"Node has no tree"; it too is straight-line, so it still aborts rather than
recover or retry. -/
theorem c2_error_delegation :
    ∀ s p ty sig cb p2 k d b a na pa : String,
      expectCalls (n_path s p) = 0 ∧
      expectCalls (n_ty_path s ty p) = 0 ∧
      expectCalls (n_path_ty s p ty) = 0 ∧
      expectCalls (nm_path s p) = 0 ∧
      expectCalls (nm_ty_path s ty p) = 0 ∧
      expectCalls (nm_path_ty s p ty) = 0 ∧
      expectCalls (connect_self s p sig cb) = 0 ∧
      expectCalls (connect_node s p sig p2 cb) = 0 ∧
      expectCalls any_press = 0 ∧
      expectCalls (key_press k) = 0 ∧
      expectCalls (key_press_phys k) = 0 ∧
      expectCalls (key_press_label k) = 0 ∧
      expectCalls (mouse_press b) = 0 ∧
      expectCalls (joy_press d b) = 0 ∧
      expectCalls (act_press a) = 0 ∧
      expectCalls (act_press_down a) = 0 ∧
      expectCalls (act_press_up a) = 0 ∧
      expectCalls (act_str a) = 0 ∧
      expectCalls (act_str_raw a) = 0 ∧
      expectCalls (act_axis na pa) = 0 ∧
      expectCalls (emit s sig) = 0 ∧
      expectCalls (free s) = 0 ∧
      expectCalls (reload s) = 1 ∧
      hasOwnStrLit (n_path s p) = false ∧
      hasOwnStrLit (n_ty_path s ty p) = false ∧
      hasOwnStrLit (n_path_ty s p ty) = false ∧
      hasOwnStrLit (nm_path s p) = false ∧
      hasOwnStrLit (nm_ty_path s ty p) = false ∧
      hasOwnStrLit (nm_path_ty s p ty) = false ∧
      hasOwnStrLit (connect_self s p sig cb) = false ∧
      hasOwnStrLit (connect_node s p sig p2 cb) = false ∧
      hasOwnStrLit any_press = false ∧
      hasOwnStrLit (key_press k) = false ∧
      hasOwnStrLit (key_press_phys k) = false ∧
      hasOwnStrLit (key_press_label k) = false ∧
      hasOwnStrLit (mouse_press b) = false ∧
      hasOwnStrLit (joy_press d b) = false ∧
      hasOwnStrLit (act_press a) = false ∧
      hasOwnStrLit (act_press_down a) = false ∧
      hasOwnStrLit (act_press_up a) = false ∧
      hasOwnStrLit (act_str a) = false ∧
      hasOwnStrLit (act_str_raw a) = false ∧
      hasOwnStrLit (act_axis na pa) = false ∧
      hasOwnStrLit (emit s sig) = false ∧
      hasOwnStrLit (free s) = false ∧
      reload s =
        .call0
          (.call1 (.call0 (.call0 (.var s) .base_mut) .get_tree)
            .expect (.strLit "Node has no tree"))
          .reload_current_scene ∧
      straightLine (reload s) = true := by
  intros
  repeat' apply And.intro
  all_goals rfl

/-- C3: `connect!` is built on the child-lookup rewrite.  In both forms the
expansion is exactly `.connect` applied to the expansion of
`n!($self, $node_path)`, with the signal converted by `.into()`, and the
callable taken from `$self.base()` in the self-callback form and from the
expansion of `n!($self, $node_path_2)` in the two-node form. -/
theorem c3_connect_reuses_n :
    ∀ s p sig cb p2 : String,
      connect_self s p sig cb =
        .call2 (n_path s p) .connect
          (.call0 (.arg sig) .into)
          (.call1 (.call0 (.var s) .base) .callable (.arg cb)) ∧
      connect_node s p sig p2 cb =
        .call2 (n_path s p) .connect
          (.call0 (.arg sig) .into)
          (.call1 (n_path s p2) .callable (.arg cb)) := by
  intros
  exact ⟨rfl, rfl⟩

/-- C4: every rewrite arm expands exactly to the call shape documented in
its doc comment — in particular `key_press!(k)` to
`Input::singleton().is_key_pressed(k)`, `act_press_down!(a)` to
`Input::singleton().is_action_just_pressed(a.into())`, and `free!(self)` to
`self.base_mut().queue_free()` — spelled out here for all twenty-three
arms. -/
theorem c4_documented_shapes :
    ∀ s p ty sig cb p2 k d b a na pa : String,
      n_path s p = .callTy1 (.call0 (.var s) .base) .get_node_as "Node" (.arg p) ∧
      n_ty_path s ty p = .callTy1 (.call0 (.var s) .base) .get_node_as ty (.arg p) ∧
      n_path_ty s p ty = .callTy1 (.call0 (.var s) .base) .get_node_as ty (.arg p) ∧
      nm_path s p = .callTy1 (.call0 (.var s) .base_mut) .get_node_as "Node" (.arg p) ∧
      nm_ty_path s ty p = .callTy1 (.call0 (.var s) .base_mut) .get_node_as ty (.arg p) ∧
      nm_path_ty s p ty = .callTy1 (.call0 (.var s) .base_mut) .get_node_as ty (.arg p) ∧
      connect_self s p sig cb =
        .call2 (.callTy1 (.call0 (.var s) .base) .get_node_as "Node" (.arg p)) .connect
          (.call0 (.arg sig) .into)
          (.call1 (.call0 (.var s) .base) .callable (.arg cb)) ∧
      connect_node s p sig p2 cb =
        .call2 (.callTy1 (.call0 (.var s) .base) .get_node_as "Node" (.arg p)) .connect
          (.call0 (.arg sig) .into)
          (.call1 (.callTy1 (.call0 (.var s) .base) .get_node_as "Node" (.arg p2))
            .callable (.arg cb)) ∧
      any_press = .call0 (.statCall "Input" .singleton) .is_anything_pressed ∧
      key_press k = .call1 (.statCall "Input" .singleton) .is_key_pressed (.arg k) ∧
      key_press_phys k =
        .call1 (.statCall "Input" .singleton) .is_physical_key_pressed (.arg k) ∧
      key_press_label k =
        .call1 (.statCall "Input" .singleton) .is_key_label_pressed (.arg k) ∧
      mouse_press b =
        .call1 (.statCall "Input" .singleton) .is_mouse_button_pressed (.arg b) ∧
      joy_press d b =
        .call2 (.statCall "Input" .singleton) .is_joy_button_pressed (.arg d) (.arg b) ∧
      act_press a =
        .call1 (.statCall "Input" .singleton) .is_action_pressed
          (.call0 (.arg a) .into) ∧
      act_press_down a =
        .call1 (.statCall "Input" .singleton) .is_action_just_pressed
          (.call0 (.arg a) .into) ∧
      act_press_up a =
        .call1 (.statCall "Input" .singleton) .is_action_just_released
          (.call0 (.arg a) .into) ∧
      act_str a =
        .call1 (.statCall "Input" .singleton) .get_action_strength
          (.call0 (.arg a) .into) ∧
      act_str_raw a =
        .call1 (.statCall "Input" .singleton) .get_action_raw_strength
          (.call0 (.arg a) .into) ∧
      act_axis na pa =
        .call2 (.statCall "Input" .singleton) .get_axis
          (.call0 (.arg na) .into) (.call0 (.arg pa) .into) ∧
      emit s sig =
        .call2 (.call0 (.var s) .base_mut) .emit_signal
          (.call0 (.arg sig) .into) .emptySliceLit ∧
      free s = .call0 (.call0 (.var s) .base_mut) .queue_free ∧
      reload s =
        .call0
          (.call1 (.call0 (.call0 (.var s) .base_mut) .get_tree)
            .expect (.strLit "Node has no tree"))
          .reload_current_scene := by
  intros
  repeat' apply And.intro
  all_goals rfl

/-- C5, counterexample: the claim that no expansion applies any conversion
to an argument before handing it to the engine call fails on `act_press!`.
At the concrete invocation `act_press!("jump")` (the doc example of lib.rs
line 214) the expansion applies `.into()` to the action argument before
passing it to `is_action_pressed`. -/
theorem c5_counterexample : ¬ (untouchedArgs (act_press "jump") = true) := by
  decide

/-- C5, amended: arguments are transient tokens handed to the wrapped
engine's API at the call site, except that string-name arguments (actions
and signals) receive exactly one bare std `.into()` conversion there: in
every expansion, the only method ever applied to a caller-supplied argument
token is an argument-free `.into()`, and the exact number of such
conversions per arm is as counted below (zero everywhere except one per
action or signal argument). -/
theorem c5_args_passed_through :
    ∀ s p ty sig cb p2 k d b a na pa : String,
      argCallsOnlyInto (n_path s p) = true ∧
      argCallsOnlyInto (n_ty_path s ty p) = true ∧
      argCallsOnlyInto (n_path_ty s p ty) = true ∧
      argCallsOnlyInto (nm_path s p) = true ∧
      argCallsOnlyInto (nm_ty_path s ty p) = true ∧
      argCallsOnlyInto (nm_path_ty s p ty) = true ∧
      argCallsOnlyInto (connect_self s p sig cb) = true ∧
      argCallsOnlyInto (connect_node s p sig p2 cb) = true ∧
      argCallsOnlyInto any_press = true ∧
      argCallsOnlyInto (key_press k) = true ∧
      argCallsOnlyInto (key_press_phys k) = true ∧
      argCallsOnlyInto (key_press_label k) = true ∧
      argCallsOnlyInto (mouse_press b) = true ∧
      argCallsOnlyInto (joy_press d b) = true ∧
      argCallsOnlyInto (act_press a) = true ∧
      argCallsOnlyInto (act_press_down a) = true ∧
      argCallsOnlyInto (act_press_up a) = true ∧
      argCallsOnlyInto (act_str a) = true ∧
      argCallsOnlyInto (act_str_raw a) = true ∧
      argCallsOnlyInto (act_axis na pa) = true ∧
      argCallsOnlyInto (emit s sig) = true ∧
      argCallsOnlyInto (free s) = true ∧
      argCallsOnlyInto (reload s) = true ∧
      intoCalls (n_path s p) = 0 ∧
      intoCalls (n_ty_path s ty p) = 0 ∧
      intoCalls (n_path_ty s p ty) = 0 ∧
      intoCalls (nm_path s p) = 0 ∧
      intoCalls (nm_ty_path s ty p) = 0 ∧
      intoCalls (nm_path_ty s p ty) = 0 ∧
      intoCalls (connect_self s p sig cb) = 1 ∧
      intoCalls (connect_node s p sig p2 cb) = 1 ∧
      intoCalls any_press = 0 ∧
      intoCalls (key_press k) = 0 ∧
      intoCalls (key_press_phys k) = 0 ∧
      intoCalls (key_press_label k) = 0 ∧
      intoCalls (mouse_press b) = 0 ∧
      intoCalls (joy_press d b) = 0 ∧
      intoCalls (act_press a) = 1 ∧
      intoCalls (act_press_down a) = 1 ∧
      intoCalls (act_press_up a) = 1 ∧
      intoCalls (act_str a) = 1 ∧
      intoCalls (act_str_raw a) = 1 ∧
      intoCalls (act_axis na pa) = 2 ∧
      intoCalls (emit s sig) = 1 ∧
      intoCalls (free s) = 0 ∧
      intoCalls (reload s) = 0 := by
  intros
  repeat' apply And.intro
  all_goals rfl

/-- C6: the two three-token orderings of the node-lookup rewrites are
interchangeable: `n!($self, $node_type, $node_path)` and
`n!($self, $node_path, $node_type)` expand to the same expression, and
likewise for `nm!`. -/
theorem c6_type_order_interchangeable :
    ∀ s ty p : String,
      n_ty_path s ty p = n_path_ty s p ty ∧
      nm_ty_path s ty p = nm_path_ty s p ty := by
  intros
  exact ⟨rfl, rfl⟩

/-- C7: every expansion is one straight-line expression — no branch, no
binding statement, no loop is introduced by any rewrite arm, for any
arguments. -/
theorem c7_single_expression :
    ∀ s p ty sig cb p2 k d b a na pa : String,
      straightLine (n_path s p) = true ∧
      straightLine (n_ty_path s ty p) = true ∧
      straightLine (n_path_ty s p ty) = true ∧
      straightLine (nm_path s p) = true ∧
      straightLine (nm_ty_path s ty p) = true ∧
      straightLine (nm_path_ty s p ty) = true ∧
      straightLine (connect_self s p sig cb) = true ∧
      straightLine (connect_node s p sig p2 cb) = true ∧
      straightLine any_press = true ∧
      straightLine (key_press k) = true ∧
      straightLine (key_press_phys k) = true ∧
      straightLine (key_press_label k) = true ∧
      straightLine (mouse_press b) = true ∧
      straightLine (joy_press d b) = true ∧
      straightLine (act_press a) = true ∧
      straightLine (act_press_down a) = true ∧
      straightLine (act_press_up a) = true ∧
      straightLine (act_str a) = true ∧
      straightLine (act_str_raw a) = true ∧
      straightLine (act_axis na pa) = true ∧
      straightLine (emit s sig) = true ∧
      straightLine (free s) = true ∧
      straightLine (reload s) = true := by
  intros
  repeat' apply And.intro
  all_goals rfl

/-- C8: for every argument pattern, the `nm!` expansion is exactly the `n!`
expansion with the immutable base accessor renamed to the mutable one, and
the type token and path argument reaching `get_node_as` are identical
between the two. -/
theorem c8_nm_is_mutable_n :
    ∀ s p ty : String,
      nm_path s p = baseToMut (n_path s p) ∧
      nm_ty_path s ty p = baseToMut (n_ty_path s ty p) ∧
      nm_path_ty s p ty = baseToMut (n_path_ty s p ty) ∧
      getNodeAsTy (nm_path s p) = getNodeAsTy (n_path s p) ∧
      getNodeAsTy (nm_ty_path s ty p) = getNodeAsTy (n_ty_path s ty p) ∧
      getNodeAsTy (nm_path_ty s p ty) = getNodeAsTy (n_path_ty s p ty) ∧
      getNodeAsPath (nm_path s p) = getNodeAsPath (n_path s p) ∧
      getNodeAsPath (nm_ty_path s ty p) = getNodeAsPath (n_ty_path s ty p) ∧
      getNodeAsPath (nm_path_ty s p ty) = getNodeAsPath (n_path_ty s p ty) := by
  intros
  repeat' apply And.intro
  all_goals rfl

/-- C9: when the type token is omitted, the node type defaults to `Node`:
`n!($self, $node_path)` expands to
`$self.base().get_node_as::<Node>($node_path)` and `nm!($self, $node_path)`
to `$self.base_mut().get_node_as::<Node>($node_path)`. -/
theorem c9_default_node_type :
    ∀ s p : String,
      n_path s p = .callTy1 (.call0 (.var s) .base) .get_node_as "Node" (.arg p) ∧
      nm_path s p =
        .callTy1 (.call0 (.var s) .base_mut) .get_node_as "Node" (.arg p) ∧
      getNodeAsTy (n_path s p) = some "Node" ∧
      getNodeAsTy (nm_path s p) = some "Node" := by
  intros
  repeat' apply And.intro
  all_goals rfl

/-- C10: `emit!` always emits with an empty argument list: for every self
identifier and signal token, the second argument handed to `emit_signal` is
the literal `&[]`, independent of the invocation's arguments, so no payload
can be attached through this rewrite. -/
theorem c10_emit_empty_payload :
    ∀ s sig : String,
      emit s sig =
        .call2 (.call0 (.var s) .base_mut) .emit_signal
          (.call0 (.arg sig) .into) .emptySliceLit ∧
      topArgs (emit s sig) = [.call0 (.arg sig) .into, .emptySliceLit] := by
  intros
  exact ⟨rfl, rfl⟩
